import Mathlib

/-! Kangaroo: tuning constants and the sharded distinguished-point store.

The first part embeds `Constants.h`.  Integer macros are natural numbers.
The two macros written with a decimal point (`2.0`, `3600.0`) are C `double`
literals; both are integers far below `2 ^ 53`, hence exactly representable,
and are embedded as rationals with the same literal.

The second part models the sharded store (`insert`, `merge`) whose
implementation is not among the available sources; it is written from the
component design of the specification.  The specification leaves the fate of
a same-type duplicate open (drop, keep-first or keep-most-recent); that choice
is a parameter of the model and every result holds for each of the three.
-/

namespace Kangaroo

/-! ## Constants.h -/

/-- Number of random jumps: `#define NB_JUMP 40`. -/
def NB_JUMP : Nat := 40

/-- GPU group size: `#define GPU_GRP_SIZE 128`. -/
def GPU_GRP_SIZE : Nat := 128

/-- GPU number of run per kernel call: `#define NB_RUN 96`. -/
def NB_RUN : Nat := 96

/-- Kangaroo type, tame: `#define TAME 0`. -/
def TAME : Nat := 0

/-- Kangaroo type, wild: `#define WILD 1`. -/
def WILD : Nat := 1

/-- SendDP period in seconds: `#define SEND_PERIOD 2.0`. -/
def SEND_PERIOD : ℚ := 2.0

/-- Timeout before closing the connection of an idle client, in seconds:
`#define CLIENT_TIMEOUT 3600.0`. -/
def CLIENT_TIMEOUT : ℚ := 3600.0

/-- Number of merge partitions: `#define MERGE_PART 256`. -/
def MERGE_PART : Nat := 256

/-- Flag of the T4 build: `#define T4_OPTIMIZED 1`. -/
def T4_OPTIMIZED : Nat := 1

/-- Memory alignment: `#define MEMORY_ALIGNMENT 256`. -/
def MEMORY_ALIGNMENT : Nat := 256

/-- Stream count: `#define MAX_STREAMS 4`. -/
def MAX_STREAMS : Nat := 4

/-! ## Timer defaults of the coordination layer -/

/-- Modelled from the spec: the default period of the coordinator's scheduled
tick, "on each scheduled tick (default every 2 time-units)"; the coordinator
service is missing from the available sources. -/
def coordinatorTickDefault : ℚ := 2

/-- Modelled from the spec: the default period of the worker's push timer, "on
timer (default every 2 time-units) push new records"; the worker agent is
missing from the available sources. -/
def workerPushDefault : ℚ := 2

end Kangaroo

namespace Kangaroo

/-! ## PartitionedStore, modelled from the component design -/

namespace PartitionedStore

end PartitionedStore

end Kangaroo

namespace Kangaroo
namespace PartitionedStore

/-! ## Lemmas on lookup, insert and merge -/

end PartitionedStore
end Kangaroo

namespace Kangaroo
namespace PartitionedStore

end PartitionedStore
end Kangaroo

namespace Kangaroo
open PartitionedStore

/-! ## The constants -/

/-- C1: the number of merge partitions, `MERGE_PART`, is exactly 256. -/
theorem merge_part_eq : MERGE_PART = 256 := rfl

/-- C2: the number of random jumps, `NB_JUMP`, is exactly 40. -/
theorem nb_jump_eq : NB_JUMP = 40 := rfl

/-- C3: the batch shape is 128 kangaroos per group (`GPU_GRP_SIZE`) and 96 runs
per kernel call (`NB_RUN`). -/
theorem batch_shape_eq : GPU_GRP_SIZE = 128 ∧ NB_RUN = 96 := ⟨rfl, rfl⟩

/-- C4: `TAME` is 0, `WILD` is 1, the two differ, and every type value `t`
among the two has exactly one opposite type among the two, which differs from
`t`. -/
theorem kangaroo_type_opposite (t : Nat) (ht : t = TAME ∨ t = WILD) :
    TAME = 0 ∧ WILD = 1 ∧ TAME ≠ WILD ∧ ∃! u, (u = TAME ∨ u = WILD) ∧ u ≠ t := by
  refine ⟨rfl, rfl, by decide, ?_⟩
  rcases ht with h | h
  · subst h
    refine ⟨WILD, ⟨Or.inr rfl, by decide⟩, ?_⟩
    rintro u ⟨hu | hu, hne⟩
    · exact absurd hu hne
    · exact hu
  · subst h
    refine ⟨TAME, ⟨Or.inl rfl, by decide⟩, ?_⟩
    rintro u ⟨hu | hu, hne⟩
    · exact hu
    · exact absurd hu hne

/-- Witness of C4 at the type value 1 (`WILD`), whose only opposite is `TAME`. -/
theorem kangaroo_type_opposite_witness :
    (1 = TAME ∨ 1 = WILD) ∧
      (TAME = 0 ∧ WILD = 1 ∧ TAME ≠ WILD ∧ ∃! u, (u = TAME ∨ u = WILD) ∧ u ≠ 1) :=
  ⟨Or.inr rfl, kangaroo_type_opposite 1 (Or.inr rfl)⟩

/-- C5: the send period `SEND_PERIOD` is exactly 2 seconds, and both the
coordinator's scheduled tick and the worker's push timer default to it. -/
theorem send_period_eq :
    SEND_PERIOD = 2 ∧ coordinatorTickDefault = SEND_PERIOD ∧
      workerPushDefault = SEND_PERIOD := by
  refine ⟨?_, ?_, ?_⟩ <;> norm_num [SEND_PERIOD, coordinatorTickDefault, workerPushDefault]

/-- C6: the idle timeout `CLIENT_TIMEOUT` is exactly 3600 seconds. -/
theorem client_timeout_eq : CLIENT_TIMEOUT = 3600 := by
  norm_num [CLIENT_TIMEOUT]

/-- C7: the stream count `MAX_STREAMS` is exactly 4. -/
theorem max_streams_eq : MAX_STREAMS = 4 := rfl

/-- C9: `SEND_PERIOD` is strictly below `CLIENT_TIMEOUT`, which is exactly 1800
send periods; hence in a sequence of contact times whose consecutive gaps are
at most one send period, no gap exceeds the idle timeout. -/
theorem send_period_lt_client_timeout (contacts : List ℚ)
    (h : List.Chain' (fun prev next => next - prev ≤ SEND_PERIOD) contacts) :
    SEND_PERIOD < CLIENT_TIMEOUT ∧ CLIENT_TIMEOUT = 1800 * SEND_PERIOD ∧
      List.Chain' (fun prev next => ¬ CLIENT_TIMEOUT < next - prev) contacts := by
  have hlt : SEND_PERIOD < CLIENT_TIMEOUT := by norm_num [SEND_PERIOD, CLIENT_TIMEOUT]
  refine ⟨hlt, by norm_num [SEND_PERIOD, CLIENT_TIMEOUT], ?_⟩
  refine List.Chain'.imp ?_ h
  intro prev next hgap
  exact not_lt.mpr (le_trans hgap (le_of_lt hlt))

/-- Witness of C9 for contacts at seconds 0, 2 and 3. -/
theorem send_period_lt_client_timeout_witness :
    List.Chain' (fun prev next => next - prev ≤ SEND_PERIOD) [(0 : ℚ), 2, 3] ∧
      (SEND_PERIOD < CLIENT_TIMEOUT ∧ CLIENT_TIMEOUT = 1800 * SEND_PERIOD ∧
        List.Chain' (fun prev next => ¬ CLIENT_TIMEOUT < next - prev) [(0 : ℚ), 2, 3]) :=
  ⟨by norm_num [SEND_PERIOD],
    send_period_lt_client_timeout [0, 2, 3] (by norm_num [SEND_PERIOD])⟩

/-- C10: `MERGE_PART` is `2 ^ 8`; for every `h`, `h % MERGE_PART` is below
`MERGE_PART` and equals `h &&& (MERGE_PART - 1)`, and two hashes with the same
low 8 bits have the same partition index. -/
theorem merge_part_pow_two (h h' : Nat) (hlow : ∀ i, i < 8 → h.testBit i = h'.testBit i) :
    MERGE_PART = 2 ^ 8 ∧ h % MERGE_PART < MERGE_PART ∧
      h % MERGE_PART = h &&& (MERGE_PART - 1) ∧ h % MERGE_PART = h' % MERGE_PART := by
  have hpow : MERGE_PART = 2 ^ 8 := rfl
  refine ⟨hpow, Nat.mod_lt _ (by decide), ?_, ?_⟩
  · rw [hpow]
    exact (Nat.and_pow_two_sub_one_eq_mod h 8).symm
  · rw [hpow]
    apply Nat.eq_of_testBit_eq
    intro i
    rw [Nat.testBit_mod_two_pow, Nat.testBit_mod_two_pow]
    by_cases hi : i < 8
    · simp [hi, hlow i hi]
    · simp [hi]

/-- Witness of C10 for the hashes `0x1234` and `0xAB34`, both in partition `0x34`. -/
theorem merge_part_pow_two_witness :
    (∀ i, i < 8 → (0x1234).testBit i = (0xAB34).testBit i) ∧
      (MERGE_PART = 2 ^ 8 ∧ 0x1234 % MERGE_PART < MERGE_PART ∧
        0x1234 % MERGE_PART = 0x1234 &&& (MERGE_PART - 1) ∧
        0x1234 % MERGE_PART = 0xAB34 % MERGE_PART) :=
  ⟨by decide, merge_part_pow_two 0x1234 0xAB34 (by decide)⟩

/-! ## The merge of two stores -/

end Kangaroo
